import Mathlib

/-!
Verification of the Bose SoundTouch desktop controller (`SoundTouchGUI.py`).

This file gives a shallow embedding of the orchestration logic of the
program — the device registry persistence (`load_devices`/`save_devices`),
the discovery-result normalization loop (`discover_devices`), the status
poller (`start_status_updates`/`_update_status_loop` and the two device
selection handlers), the power toggle (`toggle_power`), the volume
feedback guard (`on_volume_change`/`update_device_status`) and the artwork
fetch trigger — and proves the testable properties stated for it.

External collaborators (the `bosesoundtouchapi` library, Python's `json`
module, Tk) are modelled at their call boundary: their responses appear as
explicit parameters, and the Tk facts the embedding relies on are stated
in comments at the definitions that use them.
-/

/-! ## Registry persistence (SoundTouchGUI.py lines 176-195)

`self.saved_devices` is a Python dict of dicts, serialized verbatim by
`json.dump` and read back by `json.load`.  We model JSON values at the
shape the program stores: string and integer scalars inside a record of
named fields, inside a name-keyed registry.  The text serialization
itself is Python's `json` module (external); its dump/load round trip is
modelled as the identity on the stored value, which is what `json.dump`
followed by `json.load` yields on these dicts. -/

/-- JSON scalar values occurring in the device file: strings and integers. -/
inductive JVal where
  | s (v : String)
  | n (v : Int)
deriving DecidableEq

/-- A persisted device entry: the Python dict `{'host','name','port','mac'}`
as an ordered field list.  Legacy files may omit `port`/`mac`. -/
abbrev JRec := List (String × JVal)

/-- The in-memory `self.saved_devices` dict: display name to device dict. -/
abbrev RegJson := List (String × JRec)

/-- Python dict lookup on a field list (our dicts never repeat keys). -/
def jlookup (k : String) : JRec → Option JVal
  | [] => none
  | (k₂, v) :: rest => if k₂ = k then some v else jlookup k rest

/-- A device record as the data model describes it: `port` and `mac` may be
absent (`Option`), matching files where those keys were never written. -/
structure DeviceRecord where
  host : String
  name : String
  port : Option Int
  mac : Option String
deriving DecidableEq

/-- The dict written for a `DeviceRecord`: present fields only, in the
field order the program uses when it builds these dicts. -/
def recordToJson (r : DeviceRecord) : JRec :=
  ("host", JVal.s r.host) :: ("name", JVal.s r.name) ::
    ((match r.port with
      | some p => [("port", JVal.n p)]
      | none => []) ++
     (match r.mac with
      | some m => [("mac", JVal.s m)]
      | none => []))

/-- Reading a persisted dict back into a `DeviceRecord`: `host`/`name` are
string fields, `port` an optional integer field, `mac` an optional string
field; an absent optional key stays absent. -/
def recordFromJson (d : JRec) : Option DeviceRecord :=
  match jlookup "host" d, jlookup "name" d with
  | some (JVal.s h), some (JVal.s n) =>
    match jlookup "port" d, jlookup "mac" d with
    | none, none => some { host := h, name := n, port := none, mac := none }
    | some (JVal.n p), none => some { host := h, name := n, port := some p, mac := none }
    | none, some (JVal.s m) => some { host := h, name := n, port := none, mac := some m }
    | some (JVal.n p), some (JVal.s m) => some { host := h, name := n, port := some p, mac := some m }
    | _, _ => none
  | _, _ => none

/-- A registry of device records in file form. -/
def encodeReg (x : List (String × DeviceRecord)) : RegJson :=
  x.map (fun kv => (kv.1, recordToJson kv.2))

/-- Reading a whole persisted registry back into device records. -/
def decodeReg : RegJson → Option (List (String × DeviceRecord))
  | [] => some []
  | (k, d) :: rest =>
    match recordFromJson d, decodeReg rest with
    | some r, some rs => some ((k, r) :: rs)
    | _, _ => none

/-- `device_info.get('port', 8090)` — how both selection handlers read the
connection port out of a saved dict (SoundTouchGUI.py lines 240 and 303). -/
def connPort (d : JRec) : JVal := (jlookup "port" d).getD (JVal.n 8090)

/-- The observable states of `soundtouch_devices.json` as `load_devices`
distinguishes them: absent (`os.path.exists` is false), unreadable (`open`
raises), malformed (`json.load` raises), or holding a parsed value. -/
inductive FileState where
  | missing
  | unreadable
  | malformed
  | content (r : RegJson)

/-- `load_devices` (SoundTouchGUI.py lines 176-186).  Returns the new
`self.saved_devices` and whether an error dialog was shown.  When the file
is missing the `os.path.exists` guard skips the read silently; when `open`
or `json.load` raises, the `except` branch shows `messagebox.showerror`
and `saved_devices` keeps its previous value.  The function is total: no
exception escapes `load_devices`. -/
def load_devices : FileState → RegJson → RegJson × Bool
  | FileState.missing, saved => (saved, false)
  | FileState.unreadable, saved => (saved, true)
  | FileState.malformed, saved => (saved, true)
  | FileState.content r, _ => (r, false)

/-- `save_devices` (SoundTouchGUI.py lines 188-195), successful-write case:
`json.dump` overwrites the file with the full in-memory mapping. -/
def save_devices (r : RegJson) : FileState := FileState.content r

/-! ## Discovery normalization (SoundTouchGUI.py lines 106-174)

`discover_devices` iterates over the entries the external
`DiscoverDevices` call returned.  A bare string is split on the first
colon; a structured object is read with `getattr` defaults.  Each entry is
wrapped in its own try/except. -/

/-- Python `device.split(':', 1)` on the character list: everything before
the first colon, and the remainder after it when a colon exists. -/
def splitFirstColonList : List Char → List Char × Option (List Char)
  | [] => ([], none)
  | c :: cs =>
    if c = ':' then ([], some cs)
    else
      let r := splitFirstColonList cs
      (c :: r.1, r.2)

/-- Python `device.split(':', 1)` (SoundTouchGUI.py line 123). -/
def splitFirstColon (t : String) : String × Option String :=
  let r := splitFirstColonList t.data
  (String.mk r.1, r.2.map String.mk)

/-- One decimal digit's value. -/
def digitVal? (c : Char) : Option Nat :=
  if c.isDigit then some (c.toNat - '0'.toNat) else none

/-- Decimal evaluation of a digit run; any non-digit fails. -/
def digitsToNatAux : List Char → Nat → Option Nat
  | [], acc => some acc
  | c :: cs, acc =>
    match digitVal? c with
    | some d => digitsToNatAux cs (acc * 10 + d)
    | none => none

/-- Python `int(port)` (SoundTouchGUI.py line 124), modelled on its core
domain: an optional minus sign followed by a nonempty digit run; any other
text raises, which the per-entry handler catches. -/
def pyIntParse (t : String) : Option Int :=
  match t.data with
  | [] => none
  | '-' :: [] => none
  | '-' :: c :: cs => (digitsToNatAux (c :: cs) 0).map (fun n => -(n : Int))
  | l => (digitsToNatAux l 0).map (fun n => (n : Int))

/-- The external `SoundTouchDevice` constructed for a bare-string entry:
its `DeviceName`, and its `DeviceID` as read by
`getattr(device_obj, 'DeviceID', '')` (SoundTouchGUI.py line 136). -/
structure ExtDev where
  deviceName : String
  deviceId : Option String
deriving DecidableEq

/-- One discovery result: a bare address string (whose `SoundTouchDevice`
construction outcome is the external library's, `none` meaning the
constructor raised), or a structured object with possibly-absent
`Host`/`DeviceName`/`DeviceID`/`Port` attributes. -/
inductive DEntry where
  | str (s : String) (dev : Option ExtDev)
  | obj (host name devId : Option String) (port : Option Int)
deriving DecidableEq

/-- The per-entry body of the discovery loop (SoundTouchGUI.py lines
118-151): `none` when the entry raised (logged and skipped), otherwise the
display key and the stored dict fields. -/
def processEntry : DEntry → Option (String × DeviceRecord)
  | DEntry.str s dev =>
    let hp := splitFirstColon s
    let host := hp.1
    match (match hp.2 with
           | some ptext => pyIntParse ptext
           | none => some (8090 : Int)) with
    | none => none
    | some port =>
      match dev with
      | none => none
      | some d =>
        some (d.deviceName ++ " (" ++ host ++ ":" ++ toString port ++ ")",
              { host := host, name := d.deviceName, port := some port,
                mac := some (d.deviceId.getD "") })
  | DEntry.obj h n i p =>
    let host := h.getD "unknown"
    let name := n.getD "Unknown Device"
    let port := p.getD 8090
    let mac := i.getD ""
    some (name ++ " (" ++ host ++ ")",
          { host := host, name := name, port := some port, mac := some mac })

/-- Python dict assignment `self.devices[key] = value`: replace in place if
the key exists, else append. -/
def dictInsert (acc : List (String × DeviceRecord)) (k : String) (v : DeviceRecord) :
    List (String × DeviceRecord) :=
  match acc with
  | [] => [(k, v)]
  | (k₂, v₂) :: rest => if k₂ = k then (k, v) :: rest else (k₂, v₂) :: dictInsert rest k v

/-- The whole discovery loop over `self.devices = {}` (SoundTouchGUI.py
lines 115-159): failed entries contribute nothing, successful ones are
assigned into the dict. -/
def processEntries (es : List DEntry) : List (String × DeviceRecord) :=
  es.foldl (fun acc e =>
    match processEntry e with
    | some kv => dictInsert acc kv.1 kv.2
    | none => acc) []

/-! ## Status poller state (SoundTouchGUI.py lines 222-342)

The poller state tracks the Python attribute states of
`self.selected_client` / `self.selected_device` (absent after `del`,
present-but-`None`, or holding a live object), the `_status_update_job`
attribute holding the last `root.after` id, whether that id still refers
to a pending timer, and how many poll timers are pending in Tk's event
queue.  Tk facts used: `root.after` arms one new timer and returns its id;
`root.after_cancel` on an id whose timer already fired or was cancelled is
a no-op.  The one-shot `root.after(1000, ...)` in `toggle_power` and
`root.after(0, ...)` in the artwork thread are not poll timers (they do
not run `_update_status_loop`) and are outside `pending`. -/

/-- Attribute state of `self.selected_client` / `self.selected_device`. -/
inductive CAttr where
  | absent
  | null
  | live
deriving DecidableEq

/-- The poller-relevant program state. -/
structure PState where
  client : CAttr
  device : CAttr
  hasJob : Bool
  jobLive : Bool
  pending : Nat
deriving DecidableEq

/-- `__init__` (SoundTouchGUI.py lines 36-37): both attributes set to
`None`, no `_status_update_job` attribute, no timer armed. -/
def initState : PState :=
  { client := CAttr.null, device := CAttr.null, hasJob := false, jobLive := false, pending := 0 }

/-- `self.root.after_cancel(self._status_update_job)`: removes the pending
timer the stored id refers to; no-op when that timer already fired or was
already cancelled. -/
def cancelJob (s : PState) : PState :=
  if s.jobLive then { s with jobLive := false, pending := s.pending - 1 } else s

/-- `start_status_updates` (SoundTouchGUI.py lines 266-273): cancel the
job the attribute tracks when the attribute exists, then arm one new
3-second timer and store its id. -/
def start_status_updates (s : PState) : PState :=
  let s1 := if s.hasJob then cancelJob s else s
  { s1 with hasJob := true, jobLive := true, pending := s1.pending + 1 }

/-- Outcomes of `on_device_select` as the code distinguishes them: the
combobox value not in `self.devices`; `SoundTouchDevice` raising;
`SoundTouchClient` raising; the connection-test `GetNowPlayingStatus`
raising; full success. -/
inductive SelOutcome where
  | notInList
  | deviceCtorFail
  | clientCtorFail
  | healthFail
  | ok
deriving DecidableEq

/-- The cleanup block at the top of `on_device_select` (SoundTouchGUI.py
lines 293-299): when the client attribute exists, cancel the tracked job
(when that attribute exists) and `del` the client; then `del` the device
attribute when it exists. -/
def selectCleanup (s : PState) : PState :=
  let s1 := if s.client = CAttr.absent then s
            else { (if s.hasJob then cancelJob s else s) with client := CAttr.absent }
  if s1.device = CAttr.absent then s1 else { s1 with device := CAttr.absent }

/-- `on_device_select` (SoundTouchGUI.py lines 286-342).  After cleanup:
on a constructor failure the inner `except` finds the client attribute
absent and does nothing more (a failed `SoundTouchClient` leaves the
device attribute deleted then re-set to `None`); on a failed connection
test the `except` cancels the tracked job again and sets both attributes
to `None`; on success the handler saves, refreshes the display and calls
`start_status_updates`. -/
def on_device_select (o : SelOutcome) (s : PState) : PState :=
  match o with
  | SelOutcome.notInList => s
  | SelOutcome.deviceCtorFail => selectCleanup s
  | SelOutcome.clientCtorFail =>
    let s1 := selectCleanup s
    { s1 with device := CAttr.null }
  | SelOutcome.healthFail =>
    let s1 := selectCleanup s
    let s2 := { s1 with device := CAttr.live, client := CAttr.live }
    let s3 := if s2.hasJob then cancelJob s2 else s2
    { s3 with client := CAttr.null, device := CAttr.null }
  | SelOutcome.ok =>
    let s1 := selectCleanup s
    let s2 := { s1 with device := CAttr.live, client := CAttr.live }
    start_status_updates s2

/-- Outcomes of `on_listbox_select`: empty selection or name lookup
failing the guards; `SoundTouchDevice` raising; `SoundTouchClient`
raising; both constructions succeeding (carrying whether the
`update_device_status` refresh query succeeded — its failure is caught
inside `update_device_status` and tears nothing down). -/
inductive LbOutcome where
  | guardFail
  | deviceCtorFail
  | clientCtorFail
  | select (queryOk : Bool)
deriving DecidableEq

/-- `on_listbox_select` (SoundTouchGUI.py lines 222-255): `del`s both
attributes without touching any timer, then rebuilds device and client;
its `except` only logs and sets the status text, so a constructor failure
leaves the attribute(s) deleted.  No timer is cancelled or armed on any
path. -/
def on_listbox_select (o : LbOutcome) (s : PState) : PState :=
  match o with
  | LbOutcome.guardFail => s
  | LbOutcome.deviceCtorFail => { s with client := CAttr.absent, device := CAttr.absent }
  | LbOutcome.clientCtorFail => { s with client := CAttr.absent, device := CAttr.live }
  | LbOutcome.select _ => { s with client := CAttr.live, device := CAttr.live }

/-- Observable events of one poll tick: the displayed status was
refreshed, the displayed status was set to an error message (by
`log_error` inside `update_device_status`), or a timer was armed with the
given millisecond delay. -/
inductive Ev where
  | statusRefreshed
  | statusErrorShown
  | armTimer (ms : Nat)
deriving DecidableEq

/-- A poll timer firing and running `_update_status_loop`
(SoundTouchGUI.py lines 275-284): the fired timer leaves the pending set
(and by the proved timer invariant the only pending timer is the tracked
one, so the tracked id is now dead); when the client is live the loop
runs `update_device_status`, whose failing `GetNowPlayingStatus` is
caught at line 421 and displayed by `log_error`; then the loop always
calls `start_status_updates`, which arms the next 3000 ms timer — after
the display update, giving the fixed-delay schedule.  With no pending
timer nothing fires. -/
def tickT (queryOk : Bool) (s : PState) : PState × List Ev :=
  if s.pending = 0 then (s, [])
  else
    let s1 := { s with pending := s.pending - 1, jobLive := false }
    let evs := if s1.client = CAttr.live
               then [if queryOk then Ev.statusRefreshed else Ev.statusErrorShown]
               else []
    (start_status_updates s1, evs ++ [Ev.armTimer 3000])

/-- The operations that touch the poller state. -/
inductive Oper where
  | select (o : SelOutcome)
  | listbox (o : LbOutcome)
  | tick (queryOk : Bool)
deriving DecidableEq

/-- One step of the interaction loop. -/
def step (s : PState) (op : Oper) : PState :=
  match op with
  | Oper.select o => on_device_select o s
  | Oper.listbox o => on_listbox_select o s
  | Oper.tick q => (tickT q s).1

/-- The state after a sequence of operations from program start. -/
def run (ops : List Oper) : PState := ops.foldl step initState

/-- The timer invariant: a live tracked id implies the job attribute
exists, and either no poll timer pends (with a dead tracked id) or
exactly one pends (the tracked one). -/
abbrev TimerInv (s : PState) : Prop :=
  (s.jobLive = false ∨ s.hasJob = true) ∧
  ((s.pending = 0 ∧ s.jobLive = false) ∨ (s.pending = 1 ∧ s.jobLive = true))

/-! ## Power toggle (SoundTouchGUI.py lines 476-508) -/

/-- The control commands `toggle_power` can issue. -/
inductive PowerCmd where
  | powerOn
  | powerOff
  | toggle
deriving DecidableEq

/-- `toggle_power`: with no usable client it only reports and returns.
Otherwise it queries `GetNowPlayingStatus(True)`: `Except.error` models
the query raising (caught, error shown, nothing issued); `Except.ok none`
models a falsy result or one without a `PowerState` attribute;
`Except.ok (some ps)` models a result whose `PowerState` is `ps`.  With a
known state it issues `PowerOff` when the state is `"ON"` and `PowerOn`
otherwise; with an unknown state it falls back to the `Power()` toggle. -/
def toggle_power (connected : Bool) (query : Except Unit (Option String)) : List PowerCmd :=
  if connected then
    match query with
    | Except.error _ => []
    | Except.ok none => [PowerCmd.toggle]
    | Except.ok (some ps) =>
      if ps = "ON" then [PowerCmd.powerOff] else [PowerCmd.powerOn]
  else []

/-! ## Volume feedback guard (SoundTouchGUI.py lines 396-400 and 450-474)

Tk fact used: `ttk::scale`'s `set` stores the (clamped) value and then
invokes the `-command` callback unconditionally — there is no old/new
value comparison — so every `set`, programmatic or user-driven, runs
`on_volume_change` once, even when the value is unchanged.
`SetVolumeLevel` is a network call and moves no widget, so it triggers no
further callbacks and every invocation chain ends after one handler. -/

/-- The volume-relevant program state: the `_updating_volume` flag, the
slider's displayed value, whether a client is selected, the device's
actual volume (what `GetVolume(True).Actual` returns), and the values
sent by `SetVolumeLevel` in order. -/
structure VolUI where
  updating : Bool
  slider : Int
  connected : Bool
  deviceVol : Int
  sent : List Int
deriving DecidableEq

/-- `on_volume_change` (SoundTouchGUI.py lines 450-474): guarded by a
client being selected and the flag being clear; the body sets the flag,
sends `SetVolumeLevel` (the device adopts the value), and the `finally`
clears the flag again, so the flag's net change is nil. -/
def on_volume_change (value : Int) (s : VolUI) : VolUI :=
  if s.connected = true ∧ s.updating = false then
    { s with sent := s.sent ++ [value], deviceVol := value }
  else s

/-- `self.volume_slider.set(v)` with Tk's callback rule: the value is
stored and the `-command` callback `on_volume_change` runs synchronously,
unconditionally (also when `v` equals the value already held).  The
boolean reports whether the callback was invoked. -/
def slider_set (v : Int) (s : VolUI) : VolUI × Bool :=
  (on_volume_change v { s with slider := v }, true)

/-- The volume section of `update_device_status` during a poll tick
(SoundTouchGUI.py lines 388 and 397-399): with a client selected and the
flag clear, read `GetVolume(True).Actual` and `set` the slider to it. -/
def pollVolume (s : VolUI) : VolUI × Bool :=
  if s.connected = true ∧ s.updating = false then slider_set s.deviceVol s
  else (s, false)

/-- A user dragging the slider to `v`: Tk moves the value and invokes the
`command` callback exactly as a programmatic `set` does. -/
def userDrag (v : Int) (s : VolUI) : VolUI :=
  (slider_set v s).1

/-! ## Artwork fetch trigger (SoundTouchGUI.py lines 417-420) -/

/-- Artwork state: `self.current_artwork_url` and the URLs for which
`update_artwork` was started, in order. -/
structure ArtState where
  current : Option String
  fetched : List String
deriving DecidableEq

/-- The artwork section of one poll tick: when the now-playing result has
a truthy `ArtUrl` (non-empty — `none` models a result without the
attribute) that differs from `current_artwork_url`, record it and start
`update_artwork`; otherwise do nothing. -/
def artTick (artUrl : Option String) (s : ArtState) : ArtState :=
  match artUrl with
  | none => s
  | some u =>
    if u ≠ "" ∧ some u ≠ s.current
    then { current := some u, fetched := s.fetched ++ [u] }
    else s

/-! ## Helper lemmas -/

/-- Reading back the dict written for a record recovers the record exactly,
absent keys included. -/
theorem recordFromJson_recordToJson (r : DeviceRecord) :
    recordFromJson (recordToJson r) = some r := by
  obtain ⟨h, n, p, m⟩ := r
  cases p <;> cases m <;> rfl

/-- Splitting a colon-free character list finds no colon. -/
theorem splitFirstColonList_noColon (l : List Char) (h : ':' ∉ l) :
    splitFirstColonList l = (l, none) := by
  induction l with
  | nil => rfl
  | cons c cs ih =>
    have hc : ¬ c = ':' := fun hc => h (hc ▸ List.mem_cons_self c cs)
    have hcs : ':' ∉ cs := fun hm => h (List.mem_cons_of_mem c hm)
    simp [splitFirstColonList, hc, ih hcs]

/-- Splitting at the first colon of `a ++ ':' :: b` with `a` colon-free. -/
theorem splitFirstColonList_append (a b : List Char) (h : ':' ∉ a) :
    splitFirstColonList (a ++ ':' :: b) = (a, some b) := by
  induction a with
  | nil => simp [splitFirstColonList]
  | cons c cs ih =>
    have hc : ¬ c = ':' := fun hc => h (hc ▸ List.mem_cons_self c cs)
    have hcs : ':' ∉ cs := fun hm => h (List.mem_cons_of_mem c hm)
    simp [splitFirstColonList, hc, ih hcs]

/-- String-level split: `a ++ ":" ++ b` with `a` colon-free splits into
`a` and remainder `b`. -/
theorem splitFirstColon_append (a b : String) (h : ':' ∉ a.data) :
    splitFirstColon (a ++ ":" ++ b) = (a, some b) := by
  have hd : (a ++ ":" ++ b).data = a.data ++ ':' :: b.data := by
    simp [String.data_append]
  simp [splitFirstColon, hd, splitFirstColonList_append a.data b.data h]

/-- String-level split of a colon-free string: no port text. -/
theorem splitFirstColon_noColon (a : String) (h : ':' ∉ a.data) :
    splitFirstColon a = (a, none) := by
  simp [splitFirstColon, splitFirstColonList_noColon a.data h]

/-! ## Claim theorems -/

/-- Claim C2: for every call to `toggle_power` with a connected client,
a known power state makes it issue the explicit command matching that
state (`PowerOff` for `"ON"`, `PowerOn` otherwise) and never the toggle,
while an unknown power state makes it issue the `Power()` toggle and
neither explicit command. -/
theorem C2_power_explicit_or_toggle :
    (∀ ps : String, toggle_power true (Except.ok (some ps)) =
        (if ps = "ON" then [PowerCmd.powerOff] else [PowerCmd.powerOn])) ∧
    toggle_power true (Except.ok none) = [PowerCmd.toggle] ∧
    (∀ ps : String, PowerCmd.toggle ∉ toggle_power true (Except.ok (some ps))) ∧
    PowerCmd.powerOn ∉ toggle_power true (Except.ok none) ∧
    PowerCmd.powerOff ∉ toggle_power true (Except.ok none) := by
  refine ⟨fun ps => rfl, rfl, fun ps => ?_, by decide, by decide⟩
  by_cases hps : ps = "ON" <;> simp [toggle_power, hps]

/-- Claim C3 counterexample: with the device file missing, `load_devices`
shows no error to the user (the `os.path.exists` guard skips the read
silently), contradicting the claim that every failure mode shows an
error. -/
theorem C3_missing_shows_no_error :
    load_devices FileState.missing [] = ([], false) := rfl

/-- Claim C3 (amended): loading fails soft in every failure mode — the
in-memory registry stays empty (its prior startup value) and nothing
propagates (`load_devices` returns normally) — but an error is shown only
for an unreadable or malformed file; a missing file is skipped silently
with no error. -/
theorem C3_load_fails_soft :
    load_devices FileState.missing [] = ([], false) ∧
    load_devices FileState.unreadable [] = ([], true) ∧
    load_devices FileState.malformed [] = ([], true) ∧
    (∀ saved : RegJson, (load_devices FileState.missing saved).1 = saved ∧
      (load_devices FileState.unreadable saved).1 = saved ∧
      (load_devices FileState.malformed saved).1 = saved) :=
  ⟨rfl, rfl, rfl, fun _ => ⟨rfl, rfl, rfl⟩⟩

/-- Claim C8: saving the in-memory registry and loading it back yields the
registry again for every value (the write is the full mapping and the
read takes the file's value verbatim); the record-level encoding loses
nothing — a registry of records with possibly-absent `port`/`mac` keys
decodes back to exactly itself — and the connection-port default is
applied consistently: reading the stored dict with
`device_info.get('port', 8090)` gives the record's port when present and
8090 when the key is absent. -/
theorem C8_load_save_roundtrip :
    (∀ x : RegJson, load_devices (save_devices x) [] = (x, false)) ∧
    (∀ x : List (String × DeviceRecord), decodeReg (encodeReg x) = some x) ∧
    (∀ r : DeviceRecord, connPort (recordToJson r) = JVal.n (r.port.getD 8090)) := by
  refine ⟨fun x => rfl, ?_, ?_⟩
  · intro x
    induction x with
    | nil => rfl
    | cons kv rest ih =>
      have ih2 : decodeReg (List.map (fun kv => (kv.1, recordToJson kv.2)) rest) = some rest := by
        simpa [encodeReg] using ih
      simp [encodeReg, decodeReg, recordFromJson_recordToJson, ih2]
  · intro r
    obtain ⟨h, n, p, m⟩ := r
    cases p <;> cases m <;> rfl

/-- Claim C9: a fetch starts only when the now-playing artwork URL differs
from the last one displayed — over two consecutive poll ticks yielding the
same fresh URL the fetch runs exactly once in total, a second tick with
the URL already displayed is a complete no-op, and repeating any tick is
idempotent. -/
theorem C9_artwork_fetch_once (s : ArtState) (u : String)
    (h1 : u ≠ "") (h2 : some u ≠ s.current) :
    (artTick (some u) (artTick (some u) s)).fetched = s.fetched ++ [u] ∧
    (∀ (v : String) (t : ArtState), some v = t.current → artTick (some v) t = t) ∧
    (∀ (a : Option String) (t : ArtState), artTick a (artTick a t) = artTick a t) := by
  refine ⟨?_, ?_, ?_⟩
  · simp [artTick, h1, h2]
  · intro v t hv
    simp [artTick, hv.symm]
  · intro a t
    match a with
    | none => rfl
    | some v =>
      by_cases hg : v ≠ "" ∧ some v ≠ t.current
      · have ht : artTick (some v) t = ArtState.mk (some v) (t.fetched ++ [v]) := by
          simp only [artTick]
          rw [if_pos hg]
        rw [ht]
        simp [artTick]
      · have ht : artTick (some v) t = t := by
          simp only [artTick]
          rw [if_neg hg]
        rw [ht]
        exact ht

/-- Witness for C9 at a concrete fresh URL from the startup artwork state. -/
theorem C9_artwork_fetch_once_witness :
    ("http://art/1" ≠ "" ∧ some "http://art/1" ≠ (ArtState.mk none []).current) ∧
    (artTick (some "http://art/1") (artTick (some "http://art/1") (ArtState.mk none []))).fetched =
      [] ++ ["http://art/1"] :=
  ⟨⟨by decide, by decide⟩,
   (C9_artwork_fetch_once (ArtState.mk none []) "http://art/1" (by decide) (by decide)).1⟩

/-- Claim C5: a bare address string is split on its first colon into host
and port (the port text converted to an integer), a colon-free string gets
default port 8090, and a structured object is read field-wise with
defaults for individually absent attributes — name `"Unknown Device"`,
port `8090`, host `"unknown"`, identifier `""`. -/
theorem C5_entry_normalization :
    (∀ (host rest : String) (d : ExtDev) (p : Int),
        ':' ∉ host.data → pyIntParse rest = some p →
        processEntry (DEntry.str (host ++ ":" ++ rest) (some d)) =
          some (d.deviceName ++ " (" ++ host ++ ":" ++ toString p ++ ")",
                { host := host, name := d.deviceName, port := some p,
                  mac := some (d.deviceId.getD "") })) ∧
    (∀ (host : String) (d : ExtDev), ':' ∉ host.data →
        processEntry (DEntry.str host (some d)) =
          some (d.deviceName ++ " (" ++ host ++ ":" ++ toString (8090 : Int) ++ ")",
                { host := host, name := d.deviceName, port := some 8090,
                  mac := some (d.deviceId.getD "") })) ∧
    (∀ (h n i : Option String) (p : Option Int),
        processEntry (DEntry.obj h n i p) =
          some ((n.getD "Unknown Device") ++ " (" ++ (h.getD "unknown") ++ ")",
                { host := h.getD "unknown", name := n.getD "Unknown Device",
                  port := some (p.getD 8090), mac := some (i.getD "") })) := by
  refine ⟨?_, ?_, fun h n i p => rfl⟩
  · intro host rest d p hh hp
    simp [processEntry, splitFirstColon_append host rest hh, hp]
  · intro host d hh
    simp [processEntry, splitFirstColon_noColon host hh]

/-- Witness for C5 on the spec's scenario entry `"10.0.0.5:8090"`. -/
theorem C5_entry_normalization_witness :
    (':' ∉ "10.0.0.5".data ∧ pyIntParse "8090" = some 8090) ∧
    processEntry (DEntry.str ("10.0.0.5" ++ ":" ++ "8090")
        (some (ExtDev.mk "Living Room" (some "AABBCC")))) =
      some ("Living Room" ++ " (" ++ "10.0.0.5" ++ ":" ++ toString (8090 : Int) ++ ")",
            { host := "10.0.0.5", name := "Living Room", port := some 8090,
              mac := some "AABBCC" }) :=
  ⟨⟨by decide, by decide⟩, by
    simpa using
      C5_entry_normalization.1 "10.0.0.5" "8090" (ExtDev.mk "Living Room" (some "AABBCC")) 8090
        (by decide) (by decide)⟩

/-- Claim C6: a malformed entry is caught and skipped individually — the
discovery loop over any batch containing it produces exactly the result
of the batch without it, so one bad entry never aborts the rest. -/
theorem C6_malformed_entry_isolated (pre post : List DEntry) (e : DEntry)
    (h : processEntry e = none) :
    processEntries (pre ++ e :: post) = processEntries (pre ++ post) := by
  unfold processEntries
  rw [List.foldl_append, List.foldl_append, List.foldl_cons]
  simp [h]

/-- Witness for C6: a string entry with a non-numeric port in the middle
of a batch changes nothing about the processing of its neighbours. -/
theorem C6_malformed_entry_isolated_witness :
    processEntry (DEntry.str "kitchen:oops" (some (ExtDev.mk "Kitchen" none))) = none ∧
    processEntries ([DEntry.obj (some "10.0.0.7") (some "Den") none none] ++
        DEntry.str "kitchen:oops" (some (ExtDev.mk "Kitchen" none)) ::
        [DEntry.str "10.0.0.5:8090" (some (ExtDev.mk "Living Room" none))]) =
      processEntries ([DEntry.obj (some "10.0.0.7") (some "Den") none none] ++
        [DEntry.str "10.0.0.5:8090" (some (ExtDev.mk "Living Room" none))]) :=
  ⟨by decide,
   C6_malformed_entry_isolated _ _ _ (by decide)⟩

/-- `cancelJob` under the timer invariant: afterwards no timer pends and
the tracked id is dead; nothing else changes. -/
theorem cancelJob_spec (s : PState) (h : TimerInv s) :
    (cancelJob s).pending = 0 ∧ (cancelJob s).jobLive = false ∧
    (cancelJob s).hasJob = s.hasJob ∧ (cancelJob s).client = s.client ∧
    (cancelJob s).device = s.device := by
  rcases h with ⟨_, ⟨hp, hl⟩ | ⟨hp, hl⟩⟩ <;> simp [cancelJob, hl, hp]

/-- `start_status_updates` under the timer invariant: afterwards exactly
one timer pends, tracked by a live id, and the attributes are untouched. -/
theorem start_spec (s : PState) (h : TimerInv s) :
    (start_status_updates s).pending = 1 ∧ (start_status_updates s).jobLive = true ∧
    (start_status_updates s).hasJob = true ∧ (start_status_updates s).client = s.client ∧
    (start_status_updates s).device = s.device := by
  unfold start_status_updates
  by_cases hj : s.hasJob
  · obtain ⟨h1, h2, h3, h4, h5⟩ := cancelJob_spec s h
    simp [hj, h1, h4, h5]
  · rcases h with ⟨himp, hd⟩
    have hl : s.jobLive = false := by
      rcases himp with hl | hh
      · exact hl
      · exact absurd hh hj
    have hp : s.pending = 0 := by
      rcases hd with ⟨hp, _⟩ | ⟨_, hl2⟩
      · exact hp
      · rw [hl2] at hl; exact absurd hl (by simp)
    simp [hj, hp]

/-- The timer invariant holds after `cancelJob`. -/
theorem cancelJob_inv (s : PState) (h : TimerInv s) : TimerInv (cancelJob s) := by
  obtain ⟨h1, h2, h3, _, _⟩ := cancelJob_spec s h
  exact ⟨Or.inl h2, Or.inl ⟨h1, h2⟩⟩

/-- The timer invariant holds after `start_status_updates`. -/
theorem start_inv (s : PState) (h : TimerInv s) : TimerInv (start_status_updates s) := by
  obtain ⟨h1, h2, h3, _, _⟩ := start_spec s h
  exact ⟨Or.inr h3, Or.inr ⟨h1, h2⟩⟩

/-- The timer invariant only mentions the job fields, which `selectCleanup`
either leaves alone or routes through `cancelJob`. -/
theorem selectCleanup_inv (s : PState) (h : TimerInv s) : TimerInv (selectCleanup s) := by
  unfold selectCleanup
  by_cases hc : s.client = CAttr.absent
  · simp only [hc, if_pos]
    split <;> exact h
  · simp only [hc, if_neg, ite_false]
    by_cases hj : s.hasJob
    · have h2 := cancelJob_inv s h
      simp only [if_pos hj]
      split <;> exact ⟨h2.1, h2.2⟩
    · simp only [if_neg hj]
      split <;> exact ⟨h.1, h.2⟩

/-- The timer invariant ignores the attribute fields. -/
theorem timerInv_setAttrs (s : PState) (c d : CAttr) (h : TimerInv s) :
    TimerInv { s with client := c, device := d } := ⟨h.1, h.2⟩

/-- The guarded cancel `if hasattr(self, '_status_update_job'): after_cancel`
preserves the timer invariant. -/
theorem condCancel_inv (s : PState) (h : TimerInv s) :
    TimerInv (if s.hasJob then cancelJob s else s) := by
  by_cases hj : s.hasJob
  · simpa [hj] using cancelJob_inv s h
  · simpa [hj] using h

/-- The timer invariant is preserved by every `on_device_select` outcome. -/
theorem on_device_select_inv (o : SelOutcome) (s : PState) (h : TimerInv s) :
    TimerInv (on_device_select o s) := by
  match o with
  | SelOutcome.notInList => exact h
  | SelOutcome.deviceCtorFail => exact selectCleanup_inv s h
  | SelOutcome.clientCtorFail =>
    have h1 := selectCleanup_inv s h
    exact ⟨h1.1, h1.2⟩
  | SelOutcome.healthFail =>
    exact timerInv_setAttrs _ _ _
      (condCancel_inv _ (timerInv_setAttrs _ _ _ (selectCleanup_inv s h)))
  | SelOutcome.ok =>
    have h1 := selectCleanup_inv s h
    exact start_inv _ ⟨h1.1, h1.2⟩

/-- The timer invariant is preserved by every `on_listbox_select` outcome:
the handler never touches the job fields. -/
theorem on_listbox_select_inv (o : LbOutcome) (s : PState) (h : TimerInv s) :
    TimerInv (on_listbox_select o s) := by
  match o with
  | LbOutcome.guardFail => exact h
  | LbOutcome.deviceCtorFail => exact ⟨h.1, h.2⟩
  | LbOutcome.clientCtorFail => exact ⟨h.1, h.2⟩
  | LbOutcome.select q => exact ⟨h.1, h.2⟩

/-- The timer invariant is preserved by a poll tick. -/
theorem tickT_inv (q : Bool) (s : PState) (h : TimerInv s) : TimerInv (tickT q s).1 := by
  unfold tickT
  by_cases hp : s.pending = 0
  · simpa [hp] using h
  · have h1 : s.pending = 1 ∧ s.jobLive = true := by
      rcases h.2 with ⟨hp0, _⟩ | h1
      · exact absurd hp0 hp
      · exact h1
    have hh : s.hasJob = true := by
      rcases h.1 with hl | hh
      · rw [h1.2] at hl; exact absurd hl (by simp)
      · exact hh
    simp only [hp, ite_false]
    exact start_inv _ ⟨Or.inl rfl, Or.inl ⟨by simp [h1.1], rfl⟩⟩

/-- The timer invariant is preserved by every operation. -/
theorem step_inv (s : PState) (op : Oper) (h : TimerInv s) : TimerInv (step s op) := by
  match op with
  | Oper.select o => exact on_device_select_inv o s h
  | Oper.listbox o => exact on_listbox_select_inv o s h
  | Oper.tick q => exact tickT_inv q s h

/-- The timer invariant holds in every reachable state. -/
theorem run_inv (ops : List Oper) : TimerInv (run ops) := by
  unfold run
  have hgen : ∀ (l : List Oper) (s : PState), TimerInv s → TimerInv (l.foldl step s) := by
    intro l
    induction l with
    | nil => exact fun s h => h
    | cons op rest ih => exact fun s h => ih (step s op) (step_inv s op h)
  exact hgen ops initState ⟨Or.inl rfl, Or.inl ⟨rfl, rfl⟩⟩

/-- A successful dropdown selection always ends with exactly one pending
timer, a live tracked id and a live client. -/
theorem select_ok_spec (s : PState) (h : TimerInv s) :
    (on_device_select SelOutcome.ok s).pending = 1 ∧
    (on_device_select SelOutcome.ok s).jobLive = true ∧
    (on_device_select SelOutcome.ok s).client = CAttr.live := by
  have h1 := selectCleanup_inv s h
  have h2 : TimerInv { selectCleanup s with device := CAttr.live, client := CAttr.live } :=
    ⟨h1.1, h1.2⟩
  obtain ⟨p1, p2, _, p4, _⟩ :=
    start_spec { selectCleanup s with device := CAttr.live, client := CAttr.live } h2
  exact ⟨p1, p2, p4⟩

/-- Claim C1 counterexample: one successful saved-devices listbox
selection from program start leaves a device connected with zero armed
poll timers, so a device-switch operation can leave no timer while a
device is connected. -/
theorem C1_connected_with_zero_timers :
    (run [Oper.listbox (LbOutcome.select true)]).client = CAttr.live ∧
    (run [Oper.listbox (LbOutcome.select true)]).pending = 0 := by decide

/-- Claim C1 (amended): along every operation sequence at most one poll
timer is ever armed (the pending timer is cancelled before a new one is
armed), and a device switch through the dropdown handler that connects
successfully leaves exactly one armed timer; but a switch through the
saved-devices listbox leaves the timer count unchanged, so a connected
device with zero armed timers is reachable. -/
theorem C1_at_most_one_timer (ops : List Oper) :
    (run ops).pending ≤ 1 ∧
    (step (run ops) (Oper.select SelOutcome.ok)).pending = 1 ∧
    (step (run ops) (Oper.select SelOutcome.ok)).client = CAttr.live := by
  have h := run_inv ops
  refine ⟨?_, (select_ok_spec _ h).1, (select_ok_spec _ h).2.2⟩
  rcases h.2 with ⟨hp, _⟩ | ⟨hp, _⟩ <;> simp [hp]

/-- Claim C7: a poll tick whose device query fails still shows the error
and re-arms the poller — afterwards exactly one timer pends again — and
its event order is the display update first, then arming the next fixed
3000 ms (3 second) delay timer. -/
theorem C7_failed_tick_reschedules (s : PState)
    (hp : s.pending = 1) (hc : s.client = CAttr.live) :
    (tickT false s).1.pending = 1 ∧ (tickT false s).1.jobLive = true ∧
    (tickT false s).2 = [Ev.statusErrorShown, Ev.armTimer 3000] := by
  have h1 : TimerInv { s with pending := 0, jobLive := false } :=
    ⟨Or.inl rfl, Or.inl ⟨rfl, rfl⟩⟩
  obtain ⟨p1, p2, _, _, _⟩ := start_spec { s with pending := 0, jobLive := false } h1
  refine ⟨?_, ?_, ?_⟩
  · simp [tickT, hp, p1]
  · simp [tickT, hp, p2]
  · simp [tickT, hp, hc]

/-- Witness for C7 at the concrete polling state reached after one
successful dropdown connection. -/
theorem C7_failed_tick_reschedules_witness :
    ((PState.mk CAttr.live CAttr.live true true 1).pending = 1 ∧
     (PState.mk CAttr.live CAttr.live true true 1).client = CAttr.live) ∧
    ((tickT false (PState.mk CAttr.live CAttr.live true true 1)).1.pending = 1 ∧
     (tickT false (PState.mk CAttr.live CAttr.live true true 1)).1.jobLive = true ∧
     (tickT false (PState.mk CAttr.live CAttr.live true true 1)).2 =
       [Ev.statusErrorShown, Ev.armTimer 3000]) :=
  ⟨⟨rfl, rfl⟩,
   C7_failed_tick_reschedules (PState.mk CAttr.live CAttr.live true true 1) rfl rfl⟩

/-- `on_listbox_select` never touches any timer field. -/
theorem listbox_frame (o : LbOutcome) (s : PState) :
    (on_listbox_select o s).pending = s.pending ∧
    (on_listbox_select o s).hasJob = s.hasJob ∧
    (on_listbox_select o s).jobLive = s.jobLive := by
  match o with
  | LbOutcome.guardFail => exact ⟨rfl, rfl, rfl⟩
  | LbOutcome.deviceCtorFail => exact ⟨rfl, rfl, rfl⟩
  | LbOutcome.clientCtorFail => exact ⟨rfl, rfl, rfl⟩
  | LbOutcome.select q => exact ⟨rfl, rfl, rfl⟩

/-- In runs whose operations are only listbox selections and timer fires,
no timer ever pends. -/
theorem listboxOnly_pending (ops : List Oper) :
    ∀ s : PState, s.pending = 0 →
    (∀ op ∈ ops, (∃ o, op = Oper.listbox o) ∨ (∃ q, op = Oper.tick q)) →
    (ops.foldl step s).pending = 0 := by
  induction ops with
  | nil => exact fun s hs _ => hs
  | cons op rest ih =>
    intro s hs hall
    have hop := hall op (List.mem_cons_self op rest)
    have hstep : (step s op).pending = 0 := by
      rcases hop with ⟨o, rfl⟩ | ⟨q, rfl⟩
      · rw [show step s (Oper.listbox o) = on_listbox_select o s from rfl,
           (listbox_frame o s).1]
        exact hs
      · show (tickT q s).1.pending = 0
        unfold tickT
        simp [hs]
    exact ih (step s op) hstep (fun op2 hm => hall op2 (List.mem_cons_of_mem op hm))

/-- Claim C10: selecting a saved device from the listbox changes no timer
field on any outcome, establishes the new device and client session
regardless of how the ensuing display-refresh query turns out (no
connectivity validation gates it), and in any run made only of listbox
selections and timer fires no poll timer ever pends and no poll tick ever
refreshes anything — a device selected only via the listbox is never
polled. -/
theorem C10_listbox_is_frame :
    (∀ (s : PState) (o : LbOutcome),
        (on_listbox_select o s).pending = s.pending ∧
        (on_listbox_select o s).hasJob = s.hasJob ∧
        (on_listbox_select o s).jobLive = s.jobLive) ∧
    (∀ (s : PState) (q : Bool),
        (on_listbox_select (LbOutcome.select q) s).client = CAttr.live) ∧
    (∀ ops : List Oper,
        (∀ op ∈ ops, (∃ o, op = Oper.listbox o) ∨ (∃ q, op = Oper.tick q)) →
        (run ops).pending = 0 ∧ (tickT true (run ops)).2 = []) := by
  refine ⟨fun s o => listbox_frame o s, fun s q => rfl, ?_⟩
  intro ops hall
  have hp : (run ops).pending = 0 := listboxOnly_pending ops initState rfl hall
  refine ⟨hp, ?_⟩
  unfold tickT
  simp [hp]

/-- Witness for C10 on a concrete listbox-only run with a timer-fire
attempt. -/
theorem C10_listbox_is_frame_witness :
    (run [Oper.listbox (LbOutcome.select true), Oper.tick true]).pending = 0 ∧
    (tickT true (run [Oper.listbox (LbOutcome.select true), Oper.tick true])).2 = [] :=
  C10_listbox_is_frame.2.2 _ (by
    intro op hop
    simp only [List.mem_cons, List.not_mem_nil, or_false] at hop
    rcases hop with rfl | rfl
    · exact Or.inl ⟨LbOutcome.select true, rfl⟩
    · exact Or.inr ⟨true, rfl⟩)

/-- Claim C4 counterexample: at the startup state (slider at 0, flag
clear) a poll tick that reads device volume 50 performs `slider.set(50)`,
which invokes the volume-change handler — the flag is not set around the
programmatic update, so the handler passes its guard and re-sends the
value to the device.  The claimed "never re-triggers" fails. -/
theorem C4_poll_triggers_handler :
    (pollVolume (VolUI.mk false 0 true 50 [])).2 = true ∧
    (pollVolume (VolUI.mk false 0 true 50 [])).1.sent = [50] := by decide

/-- Claim C4 (amended): the re-entrancy flag prevents the poll-side
slider update while a user change is in flight (with the flag set, a poll
tick touches nothing); when a poll tick does update the slider, the
volume-change handler is invoked — unconditionally, once per `set` — and
re-sends the polled value, after which the displayed volume equals the
device volume and equals the value just sent and the flag is back clear;
every invocation chain ends after that one handler (the handler moves no
widget), so no infinite update cycle arises; and a user change followed
by a poll tick settles with the displayed volume equal to the last value
actually sent (the poll's handler invocation re-sends that same value). -/
theorem C4_volume_guard (s : VolUI) (v : Int)
    (hc : s.connected = true) (hu : s.updating = false) :
    (∀ t : VolUI, t.updating = true → pollVolume t = (t, false)) ∧
    (∀ t : VolUI, t.connected = true → t.updating = false →
        ((pollVolume t).2 = true ∧
         (pollVolume t).1.slider = t.deviceVol ∧
         (pollVolume t).1.deviceVol = t.deviceVol ∧
         (pollVolume t).1.sent = t.sent ++ [t.deviceVol] ∧
         (pollVolume t).1.updating = t.updating)) ∧
    ((pollVolume (userDrag v s)).1.slider = v ∧
     (pollVolume (userDrag v s)).1.deviceVol = v ∧
     (pollVolume (userDrag v s)).1.sent = s.sent ++ [v] ++ [v] ∧
     (pollVolume (userDrag v s)).1.sent.getLast? = some v) := by
  refine ⟨?_, ?_, ?_⟩
  · intro t ht
    simp [pollVolume, ht]
  · intro t hcon hup
    simp [pollVolume, slider_set, on_volume_change, hcon, hup]
  · simp [userDrag, slider_set, on_volume_change, pollVolume, hc, hu]

/-- Witness for C4 (amended): user drags to 30, then a poll tick arrives;
the tick's `slider.set(30)` invokes the handler once more, re-sending 30,
and the displayed volume stays 30, the last value sent. -/
theorem C4_volume_guard_witness :
    ((VolUI.mk false 20 true 20 []).connected = true ∧
     (VolUI.mk false 20 true 20 []).updating = false) ∧
    ((pollVolume (userDrag 30 (VolUI.mk false 20 true 20 []))).1.slider = 30 ∧
     (pollVolume (userDrag 30 (VolUI.mk false 20 true 20 []))).1.deviceVol = 30 ∧
     (pollVolume (userDrag 30 (VolUI.mk false 20 true 20 []))).1.sent =
       [] ++ [(30 : Int)] ++ [(30 : Int)] ∧
     (pollVolume (userDrag 30 (VolUI.mk false 20 true 20 []))).1.sent.getLast? =
       some (30 : Int)) :=
  ⟨⟨rfl, rfl⟩,
   (C4_volume_guard (VolUI.mk false 20 true 20 []) 30 rfl rfl).2.2⟩
